import Mathlib

/-!
Verification of the mmorpgapi HTTP service variants: a shallow embedding of
the route handlers that manipulate the global progress counter, the player
roster, quests and combat resolution, together with proofs about the XP and
leveling arithmetic, the admin gate, the error handling and the merge-write
frame conditions.

Conventions of the embedding: JavaScript numbers that the handlers coerce
with the toInt helper are modeled as Int; the probability and the raw
transactional increment, which are not truncated by the source, use Rat.
Int division by a positive literal in Lean is floor division, which agrees
with Math.floor of a JS division by that literal. Request and document
fields that may be missing or non-numeric are modeled by the JsVal type.
-/

namespace Mmorpg

/-- Modelled JS field value: absent is a missing field, num n is a value
whose Number coercion is the finite integer n (all the game data is
integer-valued), and nonNum is a defined value whose Number coercion is NaN,
for example a non-numeric string. -/
inductive JsVal where
  | absent
  | num (n : Int)
  | nonNum
deriving DecidableEq, Repr

/-- Source helper toInt(v, d): Math.trunc of the Number coercion when that is
finite, the default d otherwise. -/
def toInt (v : JsVal) (d : Int) : Int :=
  match v with
  | .num n => n
  | _ => d

/-- Source helper clamp(v, min, max) = Math.max(min, Math.min(max, v)). -/
def clamp (v lo hi : Int) : Int := max lo (min hi v)

/-- Rational version of the clamp helper, used by the win-probability
computations. -/
def clampRat (v lo hi : Rat) : Rat := max lo (min hi v)

/-- Model of the JS String.prototype.trim call: drops leading and trailing
whitespace. Defined directly on the character list so that it evaluates by
kernel reduction. -/
def jsTrim (s : String) : String :=
  ⟨((s.data.dropWhile Char.isWhitespace).reverse.dropWhile Char.isWhitespace).reverse⟩

/-- Accumulator pass of the decimal parser backing the Number coercion of a
string. -/
def decDigitsAux (l : List Char) (acc : Nat) : Option Nat :=
  match l with
  | [] => some acc
  | c :: rest => if c.isDigit then decDigitsAux rest (acc * 10 + (c.toNat - 48)) else none

/-- Parses a nonempty all-digit character list as a natural number. -/
def decDigits (l : List Char) : Option Nat :=
  match l with
  | [] => none
  | _ => decDigitsAux l 0

/-- Model of the JS Number coercion of a string, restricted to the decimal
integer literals the service receives: the trimmed empty string coerces to 0,
an optionally signed digit string to its value, anything else to NaN (none). -/
def jsNumberOfString (s : String) : Option Int :=
  let t := jsTrim s
  match t.data with
  | [] => some 0
  | '-' :: rest => (decDigits rest).map (fun n => -(n : Int))
  | '+' :: rest => (decDigits rest).map (fun n => (n : Int))
  | l => (decDigits l).map (fun n => (n : Int))

/-- Result record of the applyLevelUp helper in the combat variant. -/
structure LevelUpResult where
  level : Int
  xp : Int
  changed : Bool
deriving DecidableEq, Repr

/-- XP threshold per level in the combat variant. -/
def XP_PER_LEVEL : Int := 100

/-- Loop of applyLevelUp: while xp is at least XP_PER_LEVEL, subtract
XP_PER_LEVEL from xp, add 1 to level and record that something changed. -/
def levelLoop (xp level : Int) (changed : Bool) : LevelUpResult :=
  if XP_PER_LEVEL ≤ xp then levelLoop (xp - XP_PER_LEVEL) (level + 1) true
  else ⟨level, xp, changed⟩
termination_by xp.toNat
decreasing_by simp only [XP_PER_LEVEL] at *; omega

/-- applyLevelUp(p) from the combat variant: reads xp with default 0 and level
with default 1 clamped into 1..9999, then runs the level-up loop. -/
def applyLevelUp (pxp plevel : JsVal) : LevelUpResult :=
  levelLoop (toInt pxp 0) (clamp (toInt plevel 1) 1 9999) false

/-- Stored player document; level and xp are JsVal because the store can hold
documents in which these fields are missing or non-numeric. -/
structure PlayerDoc where
  name : String
  level : JsVal
  xp : JsVal
deriving DecidableEq, Repr

/-- POST /battle player update (public-pages variant): after validation the
handler unconditionally merge-sets the name, level 1 and xp 0 — overwriting
any stored level and xp — and only then reads the player back, so the read
always yields level 1 and xp 0 regardless of the prior document. The win
branch gains the enemy reward xp with default 10, the loss branch the
consolation 2; the gain is added to the just-reset xp and the level is
recomputed as Math.max(1, Math.floor(newXp/100)+1). Returns the stored player
document; the prior argument is carried to exhibit that the result does not
depend on it. -/
def battleUpdate (prior : Option PlayerDoc) (nm : String) (rewardXp : JsVal)
    (win : Bool) : PlayerDoc :=
  let player : PlayerDoc := ⟨nm, .num 1, .num 0⟩
  let xpGain : Int := if win then toInt rewardXp 10 else 2
  let newXp := toInt player.xp 0 + xpGain
  let newLevel := max 1 (newXp / 100 + 1)
  ⟨nm, .num newLevel, .num newXp⟩

/-- POST /players/addxp (main index.js variant): trims the body name and
answers 400 when it is empty; otherwise writes a merge set of name, level 1 and
xp 0 and then increments xp by toInt(body.xp, 0), so the final xp equals the
delta regardless of the prior document. Returns the status and the player
document after the request. -/
def addxpMain (bodyName : Option String) (bodyXp : JsVal) (prior : Option PlayerDoc) :
    Nat × Option PlayerDoc :=
  let name := jsTrim (bodyName.getD "")
  let delta := toInt bodyXp 0
  if name = "" then (400, prior)
  else (200, some ⟨name, .num 1, .num delta⟩)

/-- Truthiness read of the current xp in the part_001 addxp handler: a missing
field or the number 0 reads as 0, a nonzero number as itself, and a defined
non-numeric value coerces to NaN. -/
def currXp (v : JsVal) : JsVal :=
  match v with
  | .absent => .num 0
  | .num n => if n = 0 then .num 0 else .num n
  | .nonNum => .nonNum

/-- JS addition of a possibly-NaN current xp and an integer delta. -/
def jsAddNum (a : JsVal) (b : Int) : JsVal :=
  match a with
  | .num n => .num (n + b)
  | _ => .nonNum

/-- The delta coercion Number(xp) or-else 0 in the part_001 addxp handler. -/
def numOr0 (v : JsVal) : Int :=
  match v with
  | .num n => n
  | _ => 0

/-- POST /players/addxp (part_001 manual read-add-write variant, after the
admin check): 400 on a falsy name; otherwise ensures the document exists with a
merge set of the name alone, reads the current xp with a truthiness test, adds
the delta and writes the sum back. -/
def addxpManual (bodyName : Option String) (bodyXp : JsVal) (prior : Option PlayerDoc) :
    Nat × Option PlayerDoc :=
  match bodyName with
  | none => (400, prior)
  | some nm =>
    if nm = "" then (400, prior)
    else
      let ensured : PlayerDoc :=
        match prior with
        | none => ⟨nm, .absent, .absent⟩
        | some p => { p with name := nm }
      let delta := numOr0 bodyXp
      let nuevo := jsAddNum (currXp ensured.xp) delta
      (200, some { ensured with xp := nuevo })

/-- PUT /players/:name (main variant): 400 on an empty trimmed name, otherwise
a merge set of the name, toInt(body.level, 1) and toInt(body.xp, 0). -/
def putPlayersMain (paramName : String) (bodyLevel bodyXp : JsVal)
    (prior : Option PlayerDoc) : Nat × Option PlayerDoc :=
  let name := jsTrim paramName
  if name = "" then (400, prior)
  else (200, some ⟨name, .num (toInt bodyLevel 1), .num (toInt bodyXp 0)⟩)

/-- Outcome of an admin-gate middleware: allow passes control to the handler,
forbidden is the 403 response, serverError is the 500 response of the part_001
gate when the secret is unconfigured. -/
inductive AdminCheck where
  | allow
  | forbidden
  | serverError
deriving DecidableEq, Repr

/-- requireAdmin (main index.js variant, also the second public-pages variant):
when ADMIN_SECRET is unset or empty every request passes; otherwise the
x-admin-secret header (empty when missing) must equal the secret, else 403. -/
def requireAdmin (adminSecret headerKey : String) : AdminCheck :=
  if adminSecret = "" then .allow
  else if headerKey = adminSecret then .allow
  else .forbidden

/-- requireSecret (part_001): 500 when the trimmed ADMIN_SECRET is empty,
otherwise the trimmed header must equal the secret, else 403. The adminSecret
argument is the already-trimmed configured value. -/
def requireSecret (adminSecret headerKey : String) : AdminCheck :=
  if adminSecret = "" then .serverError
  else if jsTrim headerKey = adminSecret then .allow
  else .forbidden

/-- requireAdmin of the strict third index.js variant: forbids whenever the
secret is empty or the header differs from it. -/
def requireAdminStrict (adminSecret headerKey : String) : AdminCheck :=
  if adminSecret = "" ∨ headerKey ≠ adminSecret then .forbidden else .allow

/-- Response of the combat endpoint read path. -/
inductive CombatResp where
  | badRequest (code : String)
  | enemyNotFound
  | ok
deriving DecidableEq, Repr

/-- POST /combat/attack (combat variant), validation and document-lookup path:
400 when the body name or enemyId is falsy (no trimming here); a missing player
document is auto-created with level 1 and xp 0; then 404 when the enemy
document is missing. Returns the response and the player document afterwards. -/
def combatAttack (bodyName bodyEnemyId : Option String)
    (player : Option PlayerDoc) (enemyDocExists : Bool) :
    CombatResp × Option PlayerDoc :=
  let name := bodyName.getD ""
  let enemyId := bodyEnemyId.getD ""
  if name = "" ∨ enemyId = "" then (.badRequest "name_and_enemy_required", player)
  else
    let player' : Option PlayerDoc :=
      match player with
      | none => some ⟨name, .num 1, .num 0⟩
      | some p => some p
    if enemyDocExists then (.ok, player')
    else (.enemyNotFound, player')

/-- GET /players/:name (shared across variants): 400 on an empty trimmed name,
404 when the player document does not exist, 200 otherwise. -/
def getPlayersName (paramName : String) (playerDocExists : Bool) : Nat :=
  let name := jsTrim paramName
  if name = "" then 400
  else if playerDocExists then 200
  else 404

/-- GET /sum: coerces the two query parameters with Number and answers 400 when
either is NaN, else 200 with the sum. A missing query parameter coerces to NaN,
a present one is a string handled by jsNumberOfString. -/
def getSum (qa qb : Option String) : Nat × Option Int :=
  match qa.bind jsNumberOfString, qb.bind jsNumberOfString with
  | some x, some y => (200, some (x + y))
  | _, _ => (400, none)

/-- POST /quests (main variant): 400 title_required when the trimmed title is
empty, otherwise appends the quest; the status defaults to open when falsy.
Returns the status code, the error code if any, and the quest list after the
request. -/
def postQuests (bodyTitle bodyStatus : Option String)
    (quests : List (String × String)) :
    Nat × Option String × List (String × String) :=
  let title := jsTrim (bodyTitle.getD "")
  let status := jsTrim (match bodyStatus with
    | none => "open"
    | some s => if s = "" then "open" else s)
  if title = "" then (400, some "title_required", quests)
  else (200, none, quests ++ [(title, status)])

/-- Error response of a catch block: HTTP status, the error field, and an
optional additional payload field. -/
structure ErrResp where
  status : Nat
  error : String
  extra : Option String
deriving DecidableEq, Repr

/-- GET /global catch handler (main variant): fixed generic code, independent
of the thrown message. -/
def getGlobalCatch (_msg : String) : ErrResp := ⟨500, "failed_get_global", none⟩

/-- POST /battle/attack catch handler (part_006): fixed code but the response
carries the exception message as an extra field. -/
def battleAttackCatch (msg : String) : ErrResp := ⟨500, "failed_battle", some msg⟩

/-- POST /players/addxp catch handler (part_001): the error field is the
exception message itself. -/
def addxpCatch (msg : String) : ErrResp := ⟨500, msg, none⟩

/-- GET /world catch handler (part_002): fixed text plus the exception message
as a details field. -/
def worldCatch (msg : String) : ErrResp := ⟨500, "Error leyendo Firestore", some msg⟩

/-- Global progress document of the part_002 increment endpoint; fields are
rationals because this handler passes the raw, untruncated amount to the
store increment. -/
structure GlobalW where
  current : Rat
  goal : Rat
  stage : Rat
deriving DecidableEq, Repr

/-- Player document of the part_002 increment endpoint. -/
structure PlayerW where
  name : String
  level : Rat
deriving DecidableEq, Repr

/-- Response of the progress increment endpoint. -/
inductive IncrResp where
  | badRequest
  | ok
deriving DecidableEq, Repr

/-- POST /world/progress/increment (part_002): 400 when playerId or name is
falsy; otherwise one transaction that initializes the global document to
current 0, goal 10000, stage 0 when it does not exist, increments current by
Number(amount or-else 1), and creates the player with level 1 or increments
its level by the same amount. A none amount models a missing field; every Rat
models a finite JS number, matching the isFinite validation. -/
def worldProgressIncrement (playerId bodyName : Option String) (amount : Option Rat)
    (g : Option GlobalW) (p : Option PlayerW) :
    IncrResp × Option GlobalW × Option PlayerW :=
  let pid := playerId.getD ""
  let nm := bodyName.getD ""
  let inc := amount.getD 1
  if pid = "" ∨ nm = "" then (.badRequest, g, p)
  else
    let g0 := g.getD ⟨0, 10000, 0⟩
    let g1 : GlobalW := { g0 with current := g0.current + inc }
    let p1 : PlayerW :=
      match p with
      | none => ⟨nm, 1⟩
      | some pp => { pp with level := pp.level + inc }
    (.ok, some g1, some p1)

/-- Stored global document for the PATCH /global frame analysis; the extra
field stands for any other stored key, which a merge write never touches. -/
structure GlobalDocM where
  current : Int
  goal : Int
  stage : Int
  extra : Int
deriving DecidableEq, Repr

/-- PATCH /global (main index.js variant, also the second public-pages
variant): a body key is merged whenever it is present, coerced with toInt with
default 0 — so a present but non-numeric value is stored as 0. -/
def patchGlobalMain (bc bg bs : JsVal) (g : GlobalDocM) : GlobalDocM :=
  { current := match bc with | .absent => g.current | v => toInt v 0
    goal := match bg with | .absent => g.goal | v => toInt v 0
    stage := match bs with | .absent => g.stage | v => toInt v 0
    extra := g.extra }

/-- PATCH /global (part_001, part_002, part_003, part_004, part_006 variant): a
body key is merged only when its Number coercion is finite, so absent and
non-numeric values leave the stored field unchanged. -/
def patchGlobalFinite (bc bg bs : JsVal) (g : GlobalDocM) : GlobalDocM :=
  { current := match bc with | .num n => n | _ => g.current
    goal := match bg with | .num n => n | _ => g.goal
    stage := match bs with | .num n => n | _ => g.stage
    extra := g.extra }

/-- Player power in POST /combat/attack (combat variant): level times 10 plus
the weapon attack bonus plus Math.floor of half the armor defense bonus. -/
def playerPowerCombat (plevel : JsVal) (atkBonus defBonus : Int) : Int :=
  toInt plevel 1 * 10 + atkBonus + defBonus / 2

/-- Win probability in POST /combat/attack (combat variant): one half plus the
power differential over the power sum plus one, clamped into one tenth to nine
tenths. In JS a zero denominator yields an infinity that the clamp sends to the
nearest bound; in Rat it yields 0 and hence one half; both lie in the range. -/
def combatWinProb (playerPower enemyPower : Int) : Rat :=
  clampRat (1/2 + ((playerPower : Rat) - (enemyPower : Rat)) /
    ((playerPower : Rat) + (enemyPower : Rat) + 1)) (1/10) (9/10)

/-- Win chance in POST /public/attack (public-pages variant): one half plus the
level-minus-power differential over 100, clamped into one tenth to nine
tenths. -/
def publicAttackChance (level power : Int) : Rat :=
  clampRat (1/2 + ((level : Rat) - (power : Rat)) / 100) (1/10) (9/10)

/-!
Shared lemmas about the level-up loop.
-/

/-- Closed form of the level-up loop for non-negative xp: the loop divides the
xp by 100, adding the quotient to the level and keeping the remainder, and the
changed flag is raised exactly when at least one iteration ran. -/
lemma levelLoop_formula (n : Nat) : ∀ (xp level : Int) (c : Bool), 0 ≤ xp → xp.toNat ≤ n →
    levelLoop xp level c = ⟨level + xp / 100, xp % 100, c || decide (100 ≤ xp)⟩ := by
  induction n with
  | zero =>
    intro xp level c h0 hn
    have hx : xp = 0 := by omega
    subst hx
    rw [levelLoop]
    simp [XP_PER_LEVEL]
  | succ m ih =>
    intro xp level c h0 hn
    rw [levelLoop]
    simp only [XP_PER_LEVEL]
    by_cases h : (100 : Int) ≤ xp
    · rw [if_pos h, ih (xp - 100) (level + 1) true (by omega) (by omega)]
      have h₁ : level + 1 + (xp - 100) / 100 = level + xp / 100 := by omega
      have h₂ : (xp - 100) % 100 = xp % 100 := by omega
      simp [h₁, h₂, decide_eq_true h]
    · rw [if_neg h]
      have h₁ : xp / 100 = 0 := by omega
      have h₂ : xp % 100 = xp := by omega
      simp [h₁, h₂, decide_eq_false h]

/-- The level-up loop never lowers the level it is given. -/
lemma levelLoop_level_le (n : Nat) : ∀ (xp level : Int) (c : Bool), xp.toNat ≤ n →
    level ≤ (levelLoop xp level c).level := by
  induction n with
  | zero =>
    intro xp level c hn
    rw [levelLoop]
    simp only [XP_PER_LEVEL]
    rw [if_neg (by omega)]
  | succ m ih =>
    intro xp level c hn
    rw [levelLoop]
    simp only [XP_PER_LEVEL]
    by_cases h : (100 : Int) ≤ xp
    · rw [if_pos h]
      have := ih (xp - 100) (level + 1) true (by omega)
      omega
    · rw [if_neg h]

/-!
Claim theorems.
-/

/-- Claim C1: for integer xp at least 0 and integer level between 1 and 9999,
applyLevelUp returns the level increased by the floor of xp over 100, the xp
reduced to its remainder mod 100, and a changed flag that is true exactly when
xp is at least 100 — the loop-based thresholding equals the integer-division
formula. -/
theorem applyLevelUp_eq_divmod (xp level : Int)
    (hxp : 0 ≤ xp) (h1 : 1 ≤ level) (h9 : level ≤ 9999) :
    applyLevelUp (.num xp) (.num level) =
      ⟨level + xp / 100, xp % 100, decide (100 ≤ xp)⟩ := by
  have hs : applyLevelUp (.num xp) (.num level)
      = levelLoop xp (max 1 (min 9999 level)) false := rfl
  have hc : max 1 (min 9999 level) = level := by omega
  rw [hs, hc, levelLoop_formula xp.toNat xp level false hxp (le_refl _)]
  simp

/-- Witness for C1 at xp 250, level 3: the hypotheses hold and the result is
level 5, xp 50, changed true. -/
theorem applyLevelUp_eq_divmod_witness :
    (0 : Int) ≤ 250 ∧ (1 : Int) ≤ 3 ∧ (3 : Int) ≤ 9999 ∧
      applyLevelUp (.num 250) (.num 3) = ⟨5, 50, true⟩ :=
  ⟨by norm_num, by norm_num, by norm_num,
    (applyLevelUp_eq_divmod 250 3 (by norm_num) (by norm_num) (by norm_num)).trans
      (by decide)⟩

/-- Claim C2 counterexample: POST /battle first unconditionally merge-sets
level 1 and xp 0, so even a player stored consistently at level 2 with xp 150
who wins against an enemy rewarding 10 xp ends at stored level 1 — the stored
level decreased across an xp-accruing operation. -/
theorem battle_level_decreases :
    battleUpdate (some ⟨"ana", .num 2, .num 150⟩) "ana" (.num 10) true
      = ⟨"ana", .num 1, .num 10⟩ ∧ ¬ ((2 : Int) ≤ 1) := by
  decide

/-- Claim C2 amended: for the applyLevelUp-based xp-accruing operations the
stored level never decreases provided it does not exceed the 9999 clamp. POST
/battle preserves no prior level at all: because it merge-sets level 1 and xp
0 before reading, the stored player after any battle is exactly level
Math.max(1, Math.floor(gain/100)+1) and xp gain — where gain is the enemy
reward with default 10 on a win and 2 on a loss — independent of the prior
stored document, so the stored level can decrease. -/
theorem level_monotone_amended :
    (∀ (xp level : Int), level ≤ 9999 →
      level ≤ (applyLevelUp (.num xp) (.num level)).level) ∧
    (∀ (prior : Option PlayerDoc) (nm : String) (rewardXp : JsVal) (win : Bool),
      battleUpdate prior nm rewardXp win =
        ⟨nm, .num (max 1 ((if win then toInt rewardXp 10 else 2) / 100 + 1)),
         .num (if win then toInt rewardXp 10 else 2)⟩) := by
  constructor
  · intro xp level hle
    have hs : applyLevelUp (.num xp) (.num level)
        = levelLoop xp (max 1 (min 9999 level)) false := rfl
    rw [hs]
    have h1 := levelLoop_level_le xp.toNat xp (max 1 (min 9999 level)) false (le_refl _)
    omega
  · intro prior nm rewardXp win
    cases win <;> simp [battleUpdate, toInt]

/-- Witness for the amended C2: a concrete instance of each conjunct; the
battle conjunct at a won fight against a reward-250 enemy yields stored level
3 and xp 250 whatever the prior document held. -/
theorem level_monotone_amended_witness :
    ((3 : Int) ≤ 9999 ∧ (3 : Int) ≤ (applyLevelUp (.num 250) (.num 3)).level) ∧
    battleUpdate (some ⟨"bob", .num 7, .num 40⟩) "bob" (.num 250) true
      = ⟨"bob", .num 3, .num 250⟩ :=
  ⟨⟨by norm_num, level_monotone_amended.1 250 3 (by norm_num)⟩,
   (level_monotone_amended.2 (some ⟨"bob", .num 7, .num 40⟩) "bob" (.num 250) true).trans
     (by decide)⟩

/-- Claim C3 counterexample: POST /players/addxp with a negative delta stores a
negative xp — the handler resets xp to 0 and then increments by the delta, so
the stored xp equals the delta, here minus 5. -/
theorem addxp_negative_xp :
    (addxpMain (some "bob") (.num (-5)) (some ⟨"bob", .num 1, .num 0⟩)).2
      = some ⟨"bob", .num 1, .num (-5)⟩ ∧ ¬ ((0 : Int) ≤ -5) := by
  decide

/-- Claim C3 amended: the stored xp after each write is an integer determined
by the handler, and it is non-negative provided the supplied delta or xp value
is non-negative (and, for the manual read-add-write variant, the prior stored
xp is non-negative): the main addxp stores exactly the delta, the manual addxp
stores the prior xp plus the delta, and PUT stores toInt of the body xp. -/
theorem xp_nonneg_amended :
    (∀ (nm : String) (d : Int) (prior : Option PlayerDoc),
      jsTrim nm ≠ "" → 0 ≤ d →
      (addxpMain (some nm) (.num d) prior).2 = some ⟨jsTrim nm, .num 1, .num d⟩) ∧
    (∀ (nm : String) (d x : Int) (p : PlayerDoc),
      nm ≠ "" → 0 ≤ d → p.xp = .num x → 0 ≤ x →
      (addxpManual (some nm) (.num d) (some p)).2
        = some ⟨nm, p.level, .num (x + d)⟩ ∧ 0 ≤ x + d) ∧
    (∀ (nm : String) (bl : JsVal) (d : Int) (prior : Option PlayerDoc),
      jsTrim nm ≠ "" → 0 ≤ d →
      (putPlayersMain nm bl (.num d) prior).2
        = some ⟨jsTrim nm, .num (toInt bl 1), .num d⟩) := by
  refine ⟨?_, ?_, ?_⟩
  · intro nm d prior hnm _hd
    simp [addxpMain, toInt, hnm]
  · intro nm d x p hnm hd hx hx0
    refine ⟨?_, by omega⟩
    simp only [addxpManual, if_neg hnm, numOr0, hx, currXp, jsAddNum]
    by_cases h0 : x = 0 <;> simp [h0]
  · intro nm bl d prior hnm _hd
    simp [putPlayersMain, toInt, hnm]

/-- Witness for the amended C3: concrete instances of all three conjuncts. -/
theorem xp_nonneg_amended_witness :
    (jsTrim "bob" ≠ "" ∧ (0 : Int) ≤ 7 ∧
      (addxpMain (some "bob") (.num 7) none).2 = some ⟨jsTrim "bob", .num 1, .num 7⟩) ∧
    ((addxpManual (some "ana") (.num 7) (some ⟨"ana", .num 2, .num 30⟩)).2
      = some ⟨"ana", .num 2, .num (30 + 7)⟩) ∧
    ((putPlayersMain "cid" (.num 4) (.num 9) none).2
      = some ⟨jsTrim "cid", .num (toInt (.num 4) 1), .num 9⟩) :=
  ⟨⟨by decide, by norm_num,
      xp_nonneg_amended.1 "bob" 7 none (by decide) (by norm_num)⟩,
   (xp_nonneg_amended.2.1 "ana" 7 30 ⟨"ana", .num 2, .num 30⟩
      (by decide) (by norm_num) rfl (by norm_num)).1,
   xp_nonneg_amended.2.2 "cid" (.num 4) 9 none (by decide) (by norm_num)⟩

/-- Claim C4 counterexample: with the admin secret unset (the empty
configuration), the main requireAdmin middleware lets a request with a
mismatching header through instead of answering 403. -/
theorem admin_unset_open :
    ("wrong" : String) ≠ "" ∧ requireAdmin "" "wrong" = .allow ∧
      requireAdmin "" "wrong" ≠ .forbidden := by
  decide

/-- Claim C4 amended: whenever the admin secret is configured non-empty, a
mismatching x-admin-secret header is rejected with 403 by every gate variant;
with the unset or empty configuration the main requireAdmin admits every
request and the part_001 requireSecret answers 500; the strict variant rejects
any mismatch regardless of the configuration. -/
theorem admin_reject_amended :
    (∀ secret key : String, secret ≠ "" → key ≠ secret →
      requireAdmin secret key = .forbidden) ∧
    (∀ secret key : String, secret ≠ "" → jsTrim key ≠ secret →
      requireSecret secret key = .forbidden) ∧
    (∀ secret key : String, key ≠ secret →
      requireAdminStrict secret key = .forbidden) ∧
    (∀ key : String, requireAdmin "" key = .allow) ∧
    (∀ key : String, requireSecret "" key = .serverError) := by
  refine ⟨?_, ?_, ?_, ?_, ?_⟩
  · intro secret key hs hk
    simp [requireAdmin, hs, hk]
  · intro secret key hs hk
    simp [requireSecret, hs, hk]
  · intro secret key hk
    simp [requireAdminStrict, hk]
  · intro key
    simp [requireAdmin]
  · intro key
    simp [requireSecret]

/-- Witness for the amended C4: a concrete non-empty secret and mismatching
header for each rejecting conjunct, and the open and 500 behaviours of the
empty configuration. -/
theorem admin_reject_amended_witness :
    (("s3cret" : String) ≠ "" ∧ ("nope" : String) ≠ "s3cret" ∧
      requireAdmin "s3cret" "nope" = .forbidden) ∧
    (jsTrim "nope" ≠ "s3cret" ∧ requireSecret "s3cret" "nope" = .forbidden) ∧
    requireAdminStrict "s3cret" "nope" = .forbidden ∧
    requireAdmin "" "anything" = .allow ∧
    requireSecret "" "anything" = .serverError :=
  ⟨⟨by decide, by decide,
      admin_reject_amended.1 "s3cret" "nope" (by decide) (by decide)⟩,
   ⟨by decide, admin_reject_amended.2.1 "s3cret" "nope" (by decide) (by decide)⟩,
   admin_reject_amended.2.2.1 "s3cret" "nope" (by decide),
   admin_reject_amended.2.2.2.1 "anything",
   admin_reject_amended.2.2.2.2 "anything"⟩

/-- Claim C5 counterexample: a combat request for a missing player and an
existing enemy does not answer 404 — the player is auto-created with level 1
and xp 0 and the request proceeds. -/
theorem combat_missing_player_not_404 :
    combatAttack (some "ana") (some "slime") none true
      = (.ok, some ⟨"ana", .num 1, .num 0⟩) ∧
    (combatAttack (some "ana") (some "slime") none true).1 ≠ .enemyNotFound := by
  decide

/-- Claim C5 amended: GET /players/:name on a missing player answers 404, and a
combat request answers 404 when the referenced enemy is missing; a missing
player is instead auto-created with level 1 and xp 0 and the request
proceeds. -/
theorem missing_doc_404_amended :
    (∀ nm : String, jsTrim nm ≠ "" → getPlayersName nm false = 404) ∧
    (∀ (p e : String) (pl : Option PlayerDoc), p ≠ "" → e ≠ "" →
      (combatAttack (some p) (some e) pl false).1 = .enemyNotFound) ∧
    (∀ p e : String, p ≠ "" → e ≠ "" →
      combatAttack (some p) (some e) none true = (.ok, some ⟨p, .num 1, .num 0⟩)) := by
  refine ⟨?_, ?_, ?_⟩
  · intro nm h
    simp [getPlayersName, h]
  · intro p e pl hp he
    cases pl <;> simp [combatAttack, hp, he]
  · intro p e hp he
    simp [combatAttack, hp, he]

/-- Witness for the amended C5 at concrete names. -/
theorem missing_doc_404_amended_witness :
    (jsTrim "ana" ≠ "" ∧ getPlayersName "ana" false = 404) ∧
    (combatAttack (some "ana") (some "slime") (some ⟨"ana", .num 1, .num 0⟩) false).1
      = .enemyNotFound ∧
    combatAttack (some "bob") (some "slime") none true
      = (.ok, some ⟨"bob", .num 1, .num 0⟩) :=
  ⟨⟨by decide, missing_doc_404_amended.1 "ana" (by decide)⟩,
   missing_doc_404_amended.2.1 "ana" "slime" (some ⟨"ana", .num 1, .num 0⟩)
     (by decide) (by decide),
   missing_doc_404_amended.2.2 "bob" "slime" (by decide) (by decide)⟩

/-- Claim C6 counterexample: the query parameter a equal to the empty string is
empty after trimming, yet GET /sum does not answer 400 — the JS Number
coercion turns the empty string into 0 and the endpoint answers 200. -/
theorem sum_empty_param_not_400 :
    jsTrim "" = "" ∧ getSum (some "") (some "3") = (200, some 3) := by
  decide

/-- Claim C6 amended: a missing or trimmed-empty quest title, a trimmed-empty
player name, and a falsy combat name or enemyId each answer 400 with an error
code and leave the store unchanged; GET /sum answers 400 exactly when a query
parameter is missing or non-numeric — an empty string coerces to 0 and yields
200. -/
theorem required_field_400_amended :
    (∀ (t s : Option String) (qs : List (String × String)),
      jsTrim (t.getD "") = "" → postQuests t s qs = (400, some "title_required", qs)) ∧
    (∀ (p e : Option String) (pl : Option PlayerDoc) (ee : Bool),
      p.getD "" = "" ∨ e.getD "" = "" →
      combatAttack p e pl ee = (.badRequest "name_and_enemy_required", pl)) ∧
    (∀ nm : String, jsTrim nm = "" → ∀ ex : Bool, getPlayersName nm ex = 400) ∧
    (∀ qa qb : Option String,
      qa.bind jsNumberOfString = none ∨ qb.bind jsNumberOfString = none →
      getSum qa qb = (400, none)) := by
  refine ⟨?_, ?_, ?_, ?_⟩
  · intro t s qs h
    simp [postQuests, h]
  · intro p e pl ee h
    unfold combatAttack
    rw [if_pos h]
  · intro nm h ex
    simp [getPlayersName, h]
  · intro qa qb h
    unfold getSum
    rcases h with h | h
    · rw [h]
    · rw [h]
      cases qa.bind jsNumberOfString <;> rfl

/-- Witness for the amended C6 at concrete requests. -/
theorem required_field_400_amended_witness :
    (jsTrim ((none : Option String).getD "") = "" ∧
      postQuests none (some "open") [] = (400, some "title_required", [])) ∧
    combatAttack (some "") (some "slime") none true
      = (.badRequest "name_and_enemy_required", none) ∧
    (jsTrim " " = "" ∧ getPlayersName " " true = 400) ∧
    getSum none (some "3") = (400, none) :=
  ⟨⟨by decide, required_field_400_amended.1 none (some "open") [] (by decide)⟩,
   required_field_400_amended.2.1 (some "") (some "slime") none true (Or.inl (by decide)),
   ⟨by decide, required_field_400_amended.2.2.1 " " (by decide) true⟩,
   required_field_400_amended.2.2.2 none (some "3") (Or.inl rfl)⟩

/-- Claim C7 counterexample: the part_001 addxp catch block uses the exception
message as the error code, so the response depends on the exception
contents — two different messages yield different responses. -/
theorem catch_depends_on_message :
    addxpCatch "boom" ≠ addxpCatch "crash" ∧
      battleAttackCatch "boom" ≠ battleAttackCatch "crash" := by
  decide

/-- Claim C7 amended: every catch block answers status 500; most answer a fixed
generic error code independent of the exception, but the part_001 addxp catch
uses the exception message as the error code and the part_006 battle and
part_002 world catches attach the message to the response. -/
theorem catch_500_amended :
    (∀ m : String, getGlobalCatch m = ⟨500, "failed_get_global", none⟩) ∧
    (∀ m : String, (battleAttackCatch m).status = 500 ∧
      (battleAttackCatch m).error = "failed_battle") ∧
    (∀ m : String, (addxpCatch m).status = 500) ∧
    (∀ m : String, (worldCatch m).status = 500) :=
  ⟨fun _ => rfl, fun _ => ⟨rfl, rfl⟩, fun _ => rfl, fun _ => rfl⟩

/-- Claim C8: a valid progress-increment request succeeds and increases the
global current counter by exactly the requested amount, starting from the
initialization current 0, goal 10000, stage 0 when the global document does
not yet exist. -/
theorem progress_increment_correct (pid nm : String) (a : Rat)
    (g : Option GlobalW) (p : Option PlayerW) (hp : pid ≠ "") (hn : nm ≠ "") :
    (worldProgressIncrement (some pid) (some nm) (some a) g p).1 = .ok ∧
    (worldProgressIncrement (some pid) (some nm) (some a) g p).2.1
      = some { g.getD ⟨0, 10000, 0⟩ with
                current := (g.getD ⟨0, 10000, 0⟩).current + a } ∧
    (g = none → (worldProgressIncrement (some pid) (some nm) (some a) g p).2.1
      = some ⟨a, 10000, 0⟩) := by
  refine ⟨?_, ?_, ?_⟩
  · simp [worldProgressIncrement, hp, hn]
  · simp [worldProgressIncrement, hp, hn]
  · rintro rfl
    simp [worldProgressIncrement, hp, hn]

/-- Witness for C8: incrementing by 5 over a stored current of 3 yields 8. -/
theorem progress_increment_correct_witness :
    ("p1" : String) ≠ "" ∧ ("Ana" : String) ≠ "" ∧
      (worldProgressIncrement (some "p1") (some "Ana") (some 5)
        (some ⟨3, 10000, 0⟩) none).2.1 = some ⟨3 + 5, 10000, 0⟩ :=
  ⟨by decide, by decide,
    (progress_increment_correct "p1" "Ana" 5 (some ⟨3, 10000, 0⟩) none
      (by decide) (by decide)).2.1⟩

/-- Claim C9 counterexample: in the main PATCH /global variant a present but
non-numeric current value is coerced by toInt to 0 and overwrites the stored
current, instead of keeping its previous value. -/
theorem patch_global_nonnum_overwrites :
    (patchGlobalMain .nonNum .absent .absent ⟨5, 6, 7, 9⟩).current = 0 ∧
      (0 : Int) ≠ 5 := by
  decide

/-- Claim C9 amended: in the isFinite-guarded variants a field that is absent
from or non-numeric in the body keeps its previous stored value, and fields
outside the named three are never touched; in the main index.js variant only
absent fields keep their previous values — a present non-numeric field is
overwritten with 0 — while other stored fields are still untouched. -/
theorem patch_global_frame_amended :
    (∀ (bc bg bs : JsVal) (g : GlobalDocM),
      ((bc = .absent ∨ bc = .nonNum) → (patchGlobalFinite bc bg bs g).current = g.current) ∧
      ((bg = .absent ∨ bg = .nonNum) → (patchGlobalFinite bc bg bs g).goal = g.goal) ∧
      ((bs = .absent ∨ bs = .nonNum) → (patchGlobalFinite bc bg bs g).stage = g.stage) ∧
      (patchGlobalFinite bc bg bs g).extra = g.extra) ∧
    (∀ (bc bg bs : JsVal) (g : GlobalDocM),
      (bc = .absent → (patchGlobalMain bc bg bs g).current = g.current) ∧
      (bg = .absent → (patchGlobalMain bc bg bs g).goal = g.goal) ∧
      (bs = .absent → (patchGlobalMain bc bg bs g).stage = g.stage) ∧
      (patchGlobalMain bc bg bs g).extra = g.extra) := by
  constructor
  · intro bc bg bs g
    refine ⟨?_, ?_, ?_, rfl⟩
    · rintro (rfl | rfl) <;> rfl
    · rintro (rfl | rfl) <;> rfl
    · rintro (rfl | rfl) <;> rfl
  · intro bc bg bs g
    refine ⟨?_, ?_, ?_, rfl⟩
    · rintro rfl; rfl
    · rintro rfl; rfl
    · rintro rfl; rfl

/-- Witness for the amended C9 at a concrete document and body. -/
theorem patch_global_frame_amended_witness :
    (patchGlobalFinite .absent .nonNum (.num 7) ⟨5, 6, 7, 9⟩).current = 5 ∧
    (patchGlobalFinite .absent .nonNum (.num 7) ⟨5, 6, 7, 9⟩).goal = 6 ∧
    (patchGlobalMain .absent (.num 3) (.num 4) ⟨5, 6, 7, 9⟩).current = 5 ∧
    (patchGlobalMain .absent (.num 3) (.num 4) ⟨5, 6, 7, 9⟩).extra = 9 :=
  ⟨(patch_global_frame_amended.1 .absent .nonNum (.num 7) ⟨5, 6, 7, 9⟩).1 (Or.inl rfl),
   (patch_global_frame_amended.1 .absent .nonNum (.num 7) ⟨5, 6, 7, 9⟩).2.1 (Or.inr rfl),
   (patch_global_frame_amended.2 .absent (.num 3) (.num 4) ⟨5, 6, 7, 9⟩).1 rfl,
   (patch_global_frame_amended.2 .absent (.num 3) (.num 4) ⟨5, 6, 7, 9⟩).2.2.2⟩

/-- Claim C10: both clamped win probabilities lie in the closed interval from
one tenth to nine tenths for every stored player and enemy state, so neither a
guaranteed win nor a guaranteed loss is possible. -/
theorem winprob_in_range (pp ep lv pw : Int) :
    1/10 ≤ combatWinProb pp ep ∧ combatWinProb pp ep ≤ 9/10 ∧
    1/10 ≤ publicAttackChance lv pw ∧ publicAttackChance lv pw ≤ 9/10 := by
  unfold combatWinProb publicAttackChance clampRat
  refine ⟨le_max_left _ _, ?_, le_max_left _ _, ?_⟩
  · exact max_le (by norm_num) (min_le_left _ _)
  · exact max_le (by norm_num) (min_le_left _ _)

end Mmorpg
